import Mathlib

/-!
Verification of `sparse_autoencoder/src_model/src_data.py`.

The file shallowly embeds the two collate functions
(`collate_neel_c4_tokenized`, `collate_pile`) and the loader factory
(`create_dataloader`) over explicit list-based data, and proves the
spec's claims about them.
-/

/-- An integer torch tensor, modelled as a shape together with the
flattened (row-major) data. -/
structure Tensor where
  shape : List Nat
  data : List Int
deriving Repr, DecidableEq

/-- `torch.tensor` applied to a python list of lists of ints:
an empty list yields the 1-D empty tensor of shape `(0,)`;
a non-empty list of equal-length rows yields the 2-D tensor stacking the
rows; rows of unequal length raise `ValueError`, modelled as `none`. -/
def torch_tensor (rows : List (List Int)) : Option Tensor :=
  match rows with
  | [] => some ⟨[0], []⟩
  | r :: rs =>
    if rs.all (fun row => row.length = r.length) then
      some ⟨[(r :: rs).length, r.length], (r :: rs).flatten⟩
    else
      none

/-- `torch.ones_like`: a tensor of the same shape with every entry `1`. -/
def ones_like (t : Tensor) : Tensor :=
  ⟨t.shape, t.data.map (fun _ => 1)⟩

/-- One dataset record: the pretokenized field `tokens`, the raw-text
field `text`, and any other fields the record may carry. -/
structure Record where
  tokens : List Int
  text : String
  extra : List (String × String)
deriving Repr, DecidableEq

/-- Collate Function for the Neel C4 Tokenized dataset
(`collate_neel_c4_tokenized` in `src_data.py`):
`tokens = [i["tokens"] for i in batch]`, `tokenized = torch.tensor(tokens)`,
`mask = torch.ones_like(tokenized)`, returning `(tokenized, mask)`;
`none` models the `ValueError` raised by `torch.tensor` on ragged input. -/
def collate_neel_c4_tokenized (batch : List Record) : Option (Tensor × Tensor) :=
  let tokens := batch.map (fun i => i.tokens)
  match torch_tensor tokens with
  | none => none
  | some tokenized => some (tokenized, ones_like tokenized)

/-- The argument tuple of one invocation of the tokenizer capability:
the texts, the padding flag, the truncation flag and `max_length`. -/
structure TokenizerCall where
  texts : List String
  padding : Bool
  truncation : Bool
  max_length : Nat
deriving Repr, DecidableEq

/-- The tokenizer capability consumed by `collate_pile`: a function from
an invocation's arguments to an `(input_ids, attention_mask)` pair,
together with the tokenizer's designated padding id. -/
structure Tokenizer where
  run : TokenizerCall → Tensor × Tensor
  pad_id : Int

/-- Collate Function for the Pile dataset (`collate_pile` in
`src_data.py`): `texts = [item["text"] for item in batch]`, one call
`tokenizer(texts, return_tensors="pt", padding=True, truncation=True,
max_length=512)`, returning `(tokenized.input_ids,
tokenized.attention_mask)`. The second component of the result is the
log of tokenizer invocations performed, one entry per call made. -/
def collate_pile (batch : List Record) (tokenizer : Tokenizer) :
    (Tensor × Tensor) × List TokenizerCall :=
  let texts := batch.map (fun item => item.text)
  let call : TokenizerCall := ⟨texts, true, true, 512⟩
  let tokenized := tokenizer.run call
  ((tokenized.1, tokenized.2), [call])

/-- Modelled from the spec: the seeded random-number generator owned by
the shuffle (the spec requires an explicit seeded generator with no
hidden global state; the concrete numeric stream is a linear
congruential generator, standing in for the library's generator, which
is not part of this repository). -/
def rngNext (s : Nat) : Nat × Nat :=
  let s2 := (s * 6364136223846793005 + 1442695040888963407) % (2 ^ 64)
  (s2, s2)

/-- Modelled from the spec: draw an index in `[0, n)` from the seeded
generator (uniform draw from the shuffle buffer). -/
def drawIndex (s : Nat) (n : Nat) : Nat × Nat :=
  let p := rngNext s
  (p.1 % n, p.2)

/-- Modelled from the spec: once the stream is exhausted, the records
remaining in the shuffle buffer are emitted by repeatedly drawing one
uniformly and removing it. `fuel` is the initial buffer length. -/
def drainGo : Nat → List Record → Nat → List Record
  | 0, _, _ => []
  | _ + 1, [], _ => []
  | fuel + 1, x :: rest, s =>
    let p := drawIndex s (x :: rest).length
    (x :: rest).getD p.1 x :: drainGo fuel ((x :: rest).eraseIdx p.1) p.2

/-- Modelled from the spec: drain the residual shuffle buffer. -/
def drainBuffer (buf : List Record) (s : Nat) : List Record :=
  drainGo buf.length buf s

/-- Modelled from the spec: the reservoir shuffle of the dataset-stream
capability (`.shuffle(seed, buffer_size)`), which is not part of this
repository. Records fill a buffer of `bufSize` elements; once full, the
next output is drawn uniformly from the buffer and replaced by the next
stream element; no record is emitted before the buffer reaches its
target occupancy; the residue is drained at end of stream. -/
def bufferShuffleLoop (bufSize : Nat) : List Record → List Record → Nat → List Record
  | [], buf, s => drainBuffer buf s
  | x :: xs, buf, s =>
    if buf.length < bufSize then
      bufferShuffleLoop bufSize xs (buf ++ [x]) s
    else
      let p := drawIndex s buf.length
      buf.getD p.1 x :: bufferShuffleLoop bufSize xs (buf.set p.1 x) p.2

/-- Modelled from the spec: `dataset.shuffle(seed=random_seed,
buffer_size=shuffle_buffer_size)` as a function of the finite record
stream. -/
def bufferShuffle (seed bufSize : Nat) (stream : List Record) : List Record :=
  bufferShuffleLoop bufSize stream [] seed

/-- Modelled from the spec: one pass of the batching step — peel off
groups of `bsz` records; `fuel` bounds the recursion and is enough
whenever the list's length is at most `fuel`. -/
def batchedGo {α : Type} (bsz : Nat) : Nat → List α → List (List α)
  | 0, _ => []
  | _ + 1, [] => []
  | fuel + 1, x :: xs => (x :: xs).take bsz :: batchedGo bsz fuel ((x :: xs).drop bsz)

/-- Modelled from the spec: the batching step of the data loader —
group the shuffled records into consecutive groups of `bsz`, the final
group possibly shorter at stream exhaustion. -/
def batched {α : Type} (bsz : Nat) (l : List α) : List (List α) :=
  if bsz = 0 then [] else batchedGo bsz l.length l

/-- The misconfiguration errors raised at loader-creation time. -/
inductive ConfigError where
  | unknownDataset
  | unknownSplit
  | invalidBatchSize
deriving Repr, DecidableEq

/-- The world of datasets the stream constructor can resolve: dataset
name to split name to finite record stream. -/
abbrev DatasetRegistry := List (String × List (String × List Record))

/-- Modelled from the spec: `load_dataset(dataset_name, streaming=True,
split=dataset_split)` — the stream-constructor capability, which is not
part of this repository; it raises at call time on an unknown dataset
identifier or split. -/
def load_dataset (registry : DatasetRegistry) (dataset_name dataset_split : String) :
    Except ConfigError (List Record) :=
  match registry.lookup dataset_name with
  | none => .error .unknownDataset
  | some splits =>
    match splits.lookup dataset_split with
    | none => .error .unknownSplit
    | some records => .ok records

/-- `create_dataloader` from `src_data.py`: resolve the stream, apply
the reservoir shuffle with the given seed and buffer size, and return
the loader, whose output is the shuffled records grouped into batches
of `batch_size` with the collate function applied to each batch. The
batch-size validation performed by the loader constructor (it rejects a
non-positive batch size at construction) and the shuffle and batching
themselves are modelled from the spec, being library capabilities
consumed by this unit; worker-pool prefetching is not modelled. -/
def create_dataloader {β : Type} (registry : DatasetRegistry) (dataset_name : String)
    (collate_fn : List Record → β) (dataset_split : String) (batch_size : Int)
    (shuffle_buffer_size : Nat) (random_seed : Nat) :
    Except ConfigError (List β) :=
  match load_dataset registry dataset_name dataset_split with
  | .error e => .error e
  | .ok dataset =>
    let shuffled_dataset := bufferShuffle random_seed shuffle_buffer_size dataset
    if batch_size ≤ 0 then .error .invalidBatchSize
    else .ok ((batched batch_size.toNat shuffled_dataset).map collate_fn)

/-- A tokenizer used as a concrete instance in witnesses: it returns a
fixed `(input_ids, attention_mask)` pair whose only masked position
holds the padding id `0`. -/
def constTokenizer : Tokenizer :=
  ⟨fun _ => (⟨[2, 2], [7, 0, 8, 9]⟩, ⟨[2, 2], [1, 0, 1, 1]⟩), 0⟩

/-- A registry holding one dataset with one split of three records,
used as a concrete instance in witnesses. -/
def sampleRegistry : DatasetRegistry :=
  [("c4", [("train", [⟨[1], "a", []⟩, ⟨[2], "b", []⟩, ⟨[3], "c", []⟩])])]

theorem flatten_drop_take (L : Nat) :
    ∀ (rows : List (List Int)) (i : Nat), (∀ r ∈ rows, r.length = L) →
      i < rows.length → (rows.flatten.drop (i * L)).take L = rows.getD i [] := by
  intro rows
  induction rows with
  | nil =>
    intro i _ hi
    simp at hi
  | cons r rs ih =>
    intro i hall hi
    have hr : r.length = L := hall r (List.mem_cons_self _ _)
    cases i with
    | zero =>
      simp only [Nat.zero_mul, List.drop_zero, List.flatten_cons, List.getD_cons_zero]
      rw [← hr, List.take_left]
    | succ i =>
      simp only [List.flatten_cons, List.getD_cons_succ]
      have hmul : (i + 1) * L = r.length + i * L := by
        rw [hr]; ring
      rw [hmul, List.drop_append]
      exact ih i (fun q hq => hall q (List.mem_cons_of_mem _ hq)) (Nat.lt_of_succ_lt_succ hi)

/-- C1. For every non-empty batch whose `tokens` sequences all have the
same length `L`, `collate_neel_c4_tokenized` returns `(ids, mask)`
where `ids` has shape `(len(batch), L)`, its row `i` is `batch[i]`'s
`tokens` verbatim, and `mask` has the identical shape with every entry
`1`. -/
theorem collate_neel_c4_tokenized_fixed_length (batch : List Record) (L : Nat)
    (hne : batch ≠ []) (hlen : ∀ r ∈ batch, r.tokens.length = L) :
    ∃ ids mask,
      collate_neel_c4_tokenized batch = some (ids, mask) ∧
      ids.shape = [batch.length, L] ∧
      mask.shape = ids.shape ∧
      ids.data = (batch.map Record.tokens).flatten ∧
      (∀ i, i < batch.length →
        (ids.data.drop (i * L)).take L = (batch.map Record.tokens).getD i []) ∧
      mask.data.length = ids.data.length ∧
      (∀ v ∈ mask.data, v = 1) := by
  obtain ⟨b, bs, rfl⟩ := List.exists_cons_of_ne_nil hne
  have hb : b.tokens.length = L := hlen b (List.mem_cons_self _ _)
  have hcond : (bs.map (fun i => i.tokens)).all
      (fun row => row.length = b.tokens.length) = true := by
    rw [List.all_eq_true]
    intro row hrow
    obtain ⟨r, hr, rfl⟩ := List.mem_map.mp hrow
    simp [hlen r (List.mem_cons_of_mem _ hr), hb]
  have hcol : collate_neel_c4_tokenized (b :: bs) =
      some (⟨[bs.length + 1, L], ((b :: bs).map Record.tokens).flatten⟩,
        ones_like ⟨[bs.length + 1, L], ((b :: bs).map Record.tokens).flatten⟩) := by
    simp only [collate_neel_c4_tokenized, List.map_cons, torch_tensor]
    rw [if_pos hcond]
    simp [hb]
  refine ⟨_, _, hcol, ?_, ?_, ?_, ?_, ?_, ?_⟩
  · simp
  · rfl
  · rfl
  · intro i hi
    exact flatten_drop_take L ((b :: bs).map Record.tokens) i
      (by intro q hq; obtain ⟨r, hr, rfl⟩ := List.mem_map.mp hq; exact hlen r hr)
      (by simpa using hi)
  · simp only [ones_like, List.length_map]
  · intro v hv
    simp only [ones_like, List.mem_map] at hv
    obtain ⟨w, _, rfl⟩ := hv
    rfl

/-- Witness for C1: the spec's scenario batch
`[{"tokens":[1,2,3]}, {"tokens":[4,5,6]}]`. -/
theorem collate_neel_c4_tokenized_fixed_length_witness :
    ([⟨[1, 2, 3], "", []⟩, ⟨[4, 5, 6], "", []⟩] : List Record) ≠ [] ∧
    (∀ r ∈ ([⟨[1, 2, 3], "", []⟩, ⟨[4, 5, 6], "", []⟩] : List Record),
      r.tokens.length = 3) ∧
    (∃ ids mask,
      collate_neel_c4_tokenized [⟨[1, 2, 3], "", []⟩, ⟨[4, 5, 6], "", []⟩] =
        some (ids, mask) ∧
      ids.shape = [([⟨[1, 2, 3], "", []⟩, ⟨[4, 5, 6], "", []⟩] : List Record).length, 3] ∧
      mask.shape = ids.shape ∧
      ids.data = (([⟨[1, 2, 3], "", []⟩, ⟨[4, 5, 6], "", []⟩] : List Record).map
        Record.tokens).flatten ∧
      (∀ i, i < ([⟨[1, 2, 3], "", []⟩, ⟨[4, 5, 6], "", []⟩] : List Record).length →
        (ids.data.drop (i * 3)).take 3 =
          (([⟨[1, 2, 3], "", []⟩, ⟨[4, 5, 6], "", []⟩] : List Record).map
            Record.tokens).getD i []) ∧
      mask.data.length = ids.data.length ∧
      (∀ v ∈ mask.data, v = 1)) :=
  ⟨by decide, by decide,
    collate_neel_c4_tokenized_fixed_length _ 3 (by decide) (by decide)⟩

/-- C3. For every pretokenized batch containing two records whose
`tokens` sequences have different lengths, `collate_neel_c4_tokenized`
fails fast: it raises (returns no tensor pair) rather than producing a
result. -/
theorem collate_neel_c4_tokenized_ragged (batch : List Record) (r1 r2 : Record)
    (h1 : r1 ∈ batch) (h2 : r2 ∈ batch)
    (hne : r1.tokens.length ≠ r2.tokens.length) :
    collate_neel_c4_tokenized batch = none := by
  cases batch with
  | nil => cases h1
  | cons b bs =>
    have key : ((bs.map (fun i => i.tokens)).all
        (fun row => row.length = b.tokens.length)) = true →
        ∀ r ∈ b :: bs, r.tokens.length = b.tokens.length := by
      intro hall r hr
      rcases List.mem_cons.mp hr with rfl | hr
      · rfl
      · have := List.all_eq_true.mp hall r.tokens (List.mem_map_of_mem _ hr)
        simpa using this
    have hcond : ¬ ((bs.map (fun i => i.tokens)).all
        (fun row => row.length = b.tokens.length)) = true := by
      intro hall
      exact hne (((key hall) r1 h1).trans ((key hall) r2 h2).symm)
    simp only [collate_neel_c4_tokenized, List.map_cons, torch_tensor]
    rw [if_neg hcond]

/-- Witness for C3: a batch whose rows have lengths `2` and `1`. -/
theorem collate_neel_c4_tokenized_ragged_witness :
    (⟨[1, 2], "", []⟩ : Record) ∈ ([⟨[1, 2], "", []⟩, ⟨[9], "", []⟩] : List Record) ∧
    (⟨[9], "", []⟩ : Record) ∈ ([⟨[1, 2], "", []⟩, ⟨[9], "", []⟩] : List Record) ∧
    (⟨[1, 2], "", []⟩ : Record).tokens.length ≠ (⟨[9], "", []⟩ : Record).tokens.length ∧
    collate_neel_c4_tokenized [⟨[1, 2], "", []⟩, ⟨[9], "", []⟩] = none :=
  ⟨by decide, by decide, by decide,
    collate_neel_c4_tokenized_ragged _ ⟨[1, 2], "", []⟩ ⟨[9], "", []⟩
      (by decide) (by decide) (by decide)⟩

/-- C9. On the empty batch `collate_neel_c4_tokenized` does not fail: it
returns two empty tensors of identical shape — but that shape is the
1-D shape `(0,)`, not a 2-D shape `(0, seq_len)`. -/
theorem collate_neel_c4_tokenized_empty :
    ∃ ids mask,
      collate_neel_c4_tokenized [] = some (ids, mask) ∧
      ids.shape = mask.shape ∧
      ids.data = [] ∧
      mask.data = [] ∧
      ids.shape.length = 1 ∧
      ∀ L : Nat, ids.shape ≠ [0, L] :=
  ⟨⟨[0], []⟩, ⟨[0], []⟩, rfl, rfl, rfl, rfl, rfl, fun L => by simp⟩

/-- C2. `collate_pile` extracts the texts in batch order, invokes the
tokenizer exactly once — with padding enabled, truncation enabled, and
`max_length = 512` — and returns the tokenizer's id tensor and
attention-mask tensor unchanged. -/
theorem collate_pile_single_call (batch : List Record) (tok : Tokenizer) :
    (collate_pile batch tok).2 = [⟨batch.map Record.text, true, true, 512⟩] ∧
    (collate_pile batch tok).1.1 = (tok.run ⟨batch.map Record.text, true, true, 512⟩).1 ∧
    (collate_pile batch tok).1.2 = (tok.run ⟨batch.map Record.text, true, true, 512⟩).2 :=
  ⟨rfl, rfl, rfl⟩

/-- C4. For every batch, if the tokenizer returns id and mask tensors of
equal shape and puts its designated padding id wherever the mask is
`0`, then `collate_pile`'s output satisfies the same: equal shapes, and
the id at every mask-`0` position equals the padding id. -/
theorem collate_pile_mask_padding (batch : List Record) (tok : Tokenizer)
    (hshape : ∀ call, (tok.run call).1.shape = (tok.run call).2.shape)
    (hpad : ∀ call k, k < (tok.run call).2.data.length →
      (tok.run call).2.data.getD k 1 = 0 →
      (tok.run call).1.data.getD k 0 = tok.pad_id) :
    (collate_pile batch tok).1.1.shape = (collate_pile batch tok).1.2.shape ∧
    ∀ k, k < (collate_pile batch tok).1.2.data.length →
      (collate_pile batch tok).1.2.data.getD k 1 = 0 →
      (collate_pile batch tok).1.1.data.getD k 0 = tok.pad_id :=
  ⟨hshape _, fun k hk h0 => hpad _ k hk h0⟩

/-- Witness for C4: `constTokenizer` on a one-record batch; its only
masked position holds the padding id `0`. -/
theorem collate_pile_mask_padding_witness :
    (collate_pile [⟨[], "hello", []⟩] constTokenizer).1.1.shape =
      (collate_pile [⟨[], "hello", []⟩] constTokenizer).1.2.shape ∧
    ∀ k, k < (collate_pile [⟨[], "hello", []⟩] constTokenizer).1.2.data.length →
      (collate_pile [⟨[], "hello", []⟩] constTokenizer).1.2.data.getD k 1 = 0 →
      (collate_pile [⟨[], "hello", []⟩] constTokenizer).1.1.data.getD k 0 =
        constTokenizer.pad_id :=
  collate_pile_mask_padding [⟨[], "hello", []⟩] constTokenizer
    (fun _ => rfl)
    (by
      intro call
      show ∀ k, k < ([1, 0, 1, 1] : List Int).length →
        ([1, 0, 1, 1] : List Int).getD k 1 = 0 →
        ([7, 0, 8, 9] : List Int).getD k 0 = 0
      decide)

/-- C10. Each collator's output depends only on the relevant field of
each record: batches that agree record-by-record on `tokens` collate
equally under the pretokenized collator, and batches that agree
record-by-record on `text` collate equally under the raw-text collator
with the same tokenizer, whatever other fields the records carry. -/
theorem collate_depends_only_on_relevant_field (b1 b2 : List Record) (tok : Tokenizer) :
    (b1.map Record.tokens = b2.map Record.tokens →
      collate_neel_c4_tokenized b1 = collate_neel_c4_tokenized b2) ∧
    (b1.map Record.text = b2.map Record.text →
      collate_pile b1 tok = collate_pile b2 tok) := by
  constructor
  · intro h
    simp only [collate_neel_c4_tokenized]
    rw [show b1.map (fun i => i.tokens) = b2.map (fun i => i.tokens) from h]
  · intro h
    simp only [collate_pile]
    rw [show b1.map (fun item => item.text) = b2.map (fun item => item.text) from h]

/-- Witness for C10: two one-record batches agreeing on `tokens` and
`text` but differing in their other fields collate identically under
both collators. -/
theorem collate_depends_only_on_relevant_field_witness :
    collate_neel_c4_tokenized [⟨[1, 2], "t", [("k", "v")]⟩] =
      collate_neel_c4_tokenized [⟨[1, 2], "t", []⟩] ∧
    collate_pile [⟨[1, 2], "t", [("k", "v")]⟩] constTokenizer =
      collate_pile [⟨[1, 2], "t", []⟩] constTokenizer :=
  ⟨(collate_depends_only_on_relevant_field [⟨[1, 2], "t", [("k", "v")]⟩]
      [⟨[1, 2], "t", []⟩] constTokenizer).1 rfl,
    (collate_depends_only_on_relevant_field [⟨[1, 2], "t", [("k", "v")]⟩]
      [⟨[1, 2], "t", []⟩] constTokenizer).2 rfl⟩

theorem batchedGo_nil {α : Type} (bsz fuel : Nat) :
    batchedGo bsz fuel ([] : List α) = [] := by
  cases fuel <;> simp [batchedGo]

theorem batchedGo_spec {α : Type} (bsz : Nat) (hb : 0 < bsz) :
    ∀ (fuel : Nat) (l : List α), l.length ≤ fuel →
      (batchedGo bsz fuel l).flatten = l ∧
      (∀ b ∈ batchedGo bsz fuel l, b.length ≤ bsz) ∧
      (∀ i, i + 1 < (batchedGo bsz fuel l).length →
        ((batchedGo bsz fuel l).getD i []).length = bsz) := by
  intro fuel
  induction fuel with
  | zero =>
    intro l hl
    have hnil : l = [] := List.length_eq_zero.mp (Nat.le_zero.mp hl)
    subst hnil
    simp [batchedGo]
  | succ n ih =>
    intro l hl
    cases l with
    | nil => simp [batchedGo]
    | cons x xs =>
      have hdrop : ((x :: xs).drop bsz).length ≤ n := by
        simp only [List.length_drop, List.length_cons]
        simp only [List.length_cons] at hl
        omega
      obtain ⟨ihf, ihlen, ihfull⟩ := ih _ hdrop
      refine ⟨?_, ?_, ?_⟩
      · simp [batchedGo, ihf]
      · intro b hmem
        simp only [batchedGo, List.mem_cons] at hmem
        rcases hmem with rfl | hmem
        · simp only [List.length_take]
          omega
        · exact ihlen b hmem
      · intro i hi
        simp only [batchedGo] at hi ⊢
        cases i with
        | zero =>
          have hgt : bsz < (x :: xs).length := by
            by_contra hle
            push_neg at hle
            have hd : (x :: xs).drop bsz = [] := List.drop_eq_nil_of_le hle
            rw [hd, batchedGo_nil] at hi
            simp at hi
          simp only [List.getD_cons_zero, List.length_take]
          omega
        | succ i =>
          simp only [List.getD_cons_succ]
          refine ihfull i ?_
          simp only [List.length_cons] at hi
          omega

theorem bufferShuffleLoop_one (xs : List Record) :
    ∀ (b : Record) (s : Nat), bufferShuffleLoop 1 xs [b] s = b :: xs := by
  induction xs with
  | nil =>
    intro b s
    simp [bufferShuffleLoop, drainBuffer, drainGo, drawIndex, Nat.mod_one]
  | cons x xs ih =>
    intro b s
    simp [bufferShuffleLoop, drawIndex, Nat.mod_one, ih]

theorem bufferShuffle_one (seed : Nat) (stream : List Record) :
    bufferShuffle seed 1 stream = stream := by
  cases stream with
  | nil => simp [bufferShuffle, bufferShuffleLoop, drainBuffer, drainGo]
  | cons x xs =>
    simp only [bufferShuffle, bufferShuffleLoop, List.length_nil, Nat.zero_lt_one,
      if_true, List.nil_append]
    exact bufferShuffleLoop_one xs x seed

/-- C5. For every registry (deterministic finite record stream) and
fixed configuration, two runs of `create_dataloader` with the same
`random_seed` and the same `shuffle_buffer_size` yield the same
sequence of output batches: the reservoir shuffle is a deterministic
function of seed and buffer size, with no hidden state. -/
theorem create_dataloader_deterministic {β : Type} (registry : DatasetRegistry)
    (dataset_name dataset_split : String) (collate_fn : List Record → β)
    (batch_size : Int) (buf buf' seed seed' : Nat)
    (hbuf : buf = buf') (hseed : seed = seed') :
    create_dataloader registry dataset_name collate_fn dataset_split batch_size buf seed =
      create_dataloader registry dataset_name collate_fn dataset_split batch_size
        buf' seed' := by
  rw [hbuf, hseed]

/-- Witness for C5: two runs over the sample registry with seed `0` and
buffer size `1` agree. -/
theorem create_dataloader_deterministic_witness :
    create_dataloader sampleRegistry "c4" (fun b => b) "train" 2 1 0 =
      create_dataloader sampleRegistry "c4" (fun b => b) "train" 2 1 0 :=
  create_dataloader_deterministic sampleRegistry "c4" "train" (fun b => b) 2 1 1 0 0
    rfl rfl

/-- C6. Every misconfigured call to `create_dataloader` — an unknown
dataset identifier or split, or a non-positive batch size — yields an
error from `create_dataloader` itself; no loader value is returned, so
the failure cannot first surface when a batch is pulled. -/
theorem create_dataloader_misconfigured {β : Type} (registry : DatasetRegistry)
    (dataset_name dataset_split : String) (collate_fn : List Record → β)
    (batch_size : Int) (shuffle_buffer_size random_seed : Nat)
    (hmis : (∃ e, load_dataset registry dataset_name dataset_split = Except.error e) ∨
      batch_size ≤ 0) :
    ∃ err, create_dataloader registry dataset_name collate_fn dataset_split batch_size
      shuffle_buffer_size random_seed = Except.error err := by
  rcases hmis with ⟨e, he⟩ | hb
  · exact ⟨e, by simp [create_dataloader, he]⟩
  · cases hld : load_dataset registry dataset_name dataset_split with
    | error e => exact ⟨e, by simp [create_dataloader, hld]⟩
    | ok ds => exact ⟨ConfigError.invalidBatchSize, by simp [create_dataloader, hld, hb]⟩

/-- Witness for C6: the empty registry knows no dataset named `"c4"`,
so creation fails immediately. -/
theorem create_dataloader_misconfigured_witness :
    ((∃ e, load_dataset [] "c4" "train" = Except.error e) ∨ (512 : Int) ≤ 0) ∧
    ∃ err, create_dataloader [] "c4" (fun b => b) "train" 512 10000 0 =
      Except.error err :=
  ⟨Or.inl ⟨ConfigError.unknownDataset, rfl⟩,
    create_dataloader_misconfigured [] "c4" "train" (fun b => b) 512 10000 0
      (Or.inl ⟨ConfigError.unknownDataset, rfl⟩)⟩

/-- C7. Every batch produced by a successfully created loader has
length at most the configured batch size, and every batch other than
the final one has length exactly the batch size, so only the final
batch may be shorter; the output is a finite list, so iteration over an
exhausted stream terminates. -/
theorem create_dataloader_batch_sizes (registry : DatasetRegistry)
    (dataset_name dataset_split : String) (batch_size : Int)
    (shuffle_buffer_size random_seed : Nat) (batches : List (List Record))
    (hok : create_dataloader registry dataset_name (fun b => b) dataset_split
      batch_size shuffle_buffer_size random_seed = Except.ok batches) :
    (∀ b ∈ batches, b.length ≤ batch_size.toNat) ∧
    (∀ i, i + 1 < batches.length → (batches.getD i []).length = batch_size.toNat) := by
  cases hld : load_dataset registry dataset_name dataset_split with
  | error e => simp [create_dataloader, hld] at hok
  | ok ds =>
    by_cases hbs : batch_size ≤ 0
    · simp [create_dataloader, hld, hbs] at hok
    · have hpos : 0 < batch_size.toNat := by omega
      have hbatches : batches = batched batch_size.toNat
          (bufferShuffle random_seed shuffle_buffer_size ds) := by
        simp [create_dataloader, hld, hbs] at hok
        exact hok.symm
      have hbat : batched batch_size.toNat (bufferShuffle random_seed shuffle_buffer_size ds) =
          batchedGo batch_size.toNat (bufferShuffle random_seed shuffle_buffer_size ds).length
            (bufferShuffle random_seed shuffle_buffer_size ds) := by
        simp [batched, Nat.pos_iff_ne_zero.mp hpos]
      rw [hbatches, hbat]
      have hspec := batchedGo_spec batch_size.toNat hpos
        (bufferShuffle random_seed shuffle_buffer_size ds).length
        (bufferShuffle random_seed shuffle_buffer_size ds) le_rfl
      exact ⟨hspec.2.1, hspec.2.2⟩

/-- Witness for C7: the sample registry with batch size `2` over three
records yields batches of lengths `2` and `1`. -/
theorem create_dataloader_batch_sizes_witness :
    create_dataloader sampleRegistry "c4" (fun b => b) "train" 2 1 0 =
      Except.ok [[⟨[1], "a", []⟩, ⟨[2], "b", []⟩], [⟨[3], "c", []⟩]] ∧
    (∀ b ∈ ([[⟨[1], "a", []⟩, ⟨[2], "b", []⟩], [⟨[3], "c", []⟩]] : List (List Record)),
      b.length ≤ (2 : Int).toNat) ∧
    (∀ i, i + 1 < ([[⟨[1], "a", []⟩, ⟨[2], "b", []⟩], [⟨[3], "c", []⟩]] :
        List (List Record)).length →
      (([[⟨[1], "a", []⟩, ⟨[2], "b", []⟩], [⟨[3], "c", []⟩]] :
        List (List Record)).getD i []).length = (2 : Int).toNat) :=
  ⟨rfl, create_dataloader_batch_sizes sampleRegistry "c4" "train" 2 1 0
    [[⟨[1], "a", []⟩, ⟨[2], "b", []⟩], [⟨[3], "c", []⟩]] rfl⟩

/-- C8. With `shuffle_buffer_size = 1` the reservoir shuffle is the
identity permutation: the loader's batches are exactly the input stream
chunked in order, and their concatenation (batch by batch, within-batch
order included) is the input stream itself. -/
theorem create_dataloader_buffer_one_identity (registry : DatasetRegistry)
    (dataset_name dataset_split : String) (batch_size : Int) (random_seed : Nat)
    (stream : List Record) (batches : List (List Record))
    (hload : load_dataset registry dataset_name dataset_split = Except.ok stream)
    (hok : create_dataloader registry dataset_name (fun b => b) dataset_split
      batch_size 1 random_seed = Except.ok batches) :
    batches = batched batch_size.toNat stream ∧ batches.flatten = stream := by
  by_cases hbs : batch_size ≤ 0
  · simp [create_dataloader, hload, hbs] at hok
  · have hpos : 0 < batch_size.toNat := by omega
    have hshuf : bufferShuffle random_seed 1 stream = stream :=
      bufferShuffle_one random_seed stream
    have hbatches : batches = batched batch_size.toNat stream := by
      simp [create_dataloader, hload, hbs, hshuf] at hok
      exact hok.symm
    refine ⟨hbatches, ?_⟩
    rw [hbatches]
    have hbat : batched batch_size.toNat stream =
        batchedGo batch_size.toNat stream.length stream := by
      simp [batched, Nat.pos_iff_ne_zero.mp hpos]
    rw [hbat]
    exact (batchedGo_spec batch_size.toNat hpos stream.length stream le_rfl).1

/-- Witness for C8: with buffer size `1`, the sample registry's three
records come out in input order, chunked into batches of two. -/
theorem create_dataloader_buffer_one_identity_witness :
    load_dataset sampleRegistry "c4" "train" =
      Except.ok [⟨[1], "a", []⟩, ⟨[2], "b", []⟩, ⟨[3], "c", []⟩] ∧
    create_dataloader sampleRegistry "c4" (fun b => b) "train" 2 1 0 =
      Except.ok [[⟨[1], "a", []⟩, ⟨[2], "b", []⟩], [⟨[3], "c", []⟩]] ∧
    ([[⟨[1], "a", []⟩, ⟨[2], "b", []⟩], [⟨[3], "c", []⟩]] : List (List Record)) =
      batched (2 : Int).toNat [⟨[1], "a", []⟩, ⟨[2], "b", []⟩, ⟨[3], "c", []⟩] ∧
    ([[⟨[1], "a", []⟩, ⟨[2], "b", []⟩], [⟨[3], "c", []⟩]] : List (List Record)).flatten =
      [⟨[1], "a", []⟩, ⟨[2], "b", []⟩, ⟨[3], "c", []⟩] :=
  ⟨rfl, rfl,
    (create_dataloader_buffer_one_identity sampleRegistry "c4" "train" 2 0
      [⟨[1], "a", []⟩, ⟨[2], "b", []⟩, ⟨[3], "c", []⟩]
      [[⟨[1], "a", []⟩, ⟨[2], "b", []⟩], [⟨[3], "c", []⟩]] rfl rfl).1,
    (create_dataloader_buffer_one_identity sampleRegistry "c4" "train" 2 0
      [⟨[1], "a", []⟩, ⟨[2], "b", []⟩, ⟨[3], "c", []⟩]
      [[⟨[1], "a", []⟩, ⟨[2], "b", []⟩], [⟨[3], "c", []⟩]] rfl rfl).2⟩
